import Mathlib

/-!
Verification development for the `self-updating-me` repository.

The single source file `update.py` is a batch job that fetches a person's
LinkedIn posts, GitHub activity and YouTube uploads over HTTP, normalizes
the LinkedIn payload, and assembles everything into one `data.json`
document.  This file gives a shallow embedding of that logic:

* JSON trees become the inductive `Json`, with accessors mirroring
  Python's `dict.get(key, default)` and `key in dict`;
* each HTTP call's outcome becomes an `HttpOutcome` input (a network-level
  failure, or a status code together with a response body), so the pure
  response-processing code of each fetcher is a function of its responses;
* `os.getenv` becomes an `env : String → Option String` parameter, with
  Python truthiness of the looked-up value made explicit (`truthyEnv`);
* `datetime.now().isoformat()` becomes a `nowIso : String` parameter and
  the epoch-milliseconds conversion a function parameter `isoOfMillis`;
* file writes (the `data.json` document and the raw-LinkedIn debug
  artifact) are returned as values instead of performed, so "what was
  written" can be stated; exceptions that `update.py` does not catch are
  returned through `Except RunError`.
-/

namespace SelfUpdating

/-- JSON-like trees, as returned by the three external APIs and as built by
`generate_data_json`.  Numbers are integers (the only numeric fields read by
`update.py` are epoch-millisecond timestamps). -/
inductive Json where
  | null : Json
  | bool : Bool → Json
  | num : Int → Json
  | str : String → Json
  | arr : List Json → Json
  | obj : List (String × Json) → Json

/-- Lookup of a key in the key/value list of a JSON object (first match wins,
as in a Python dict, whose keys are unique anyway). -/
def lookupKV : List (String × Json) → String → Option Json
  | [], _ => none
  | (k', v) :: rest, k => if k' = k then some v else lookupKV rest k

/-- `j.get? k`: the value at key `k` when `j` is an object containing `k`. -/
def Json.get? : Json → String → Option Json
  | .obj kvs, k => lookupKV kvs k
  | _, _ => none

/-- Python's `k in element` membership test on a JSON object. -/
def Json.hasKey (j : Json) (k : String) : Bool :=
  (j.get? k).isSome

/-- Python's `d.get(k, default)` where the default is a JSON value. -/
def Json.getD (j : Json) (k : String) (d : Json) : Json :=
  (j.get? k).getD d

/-- Python's `d.get(k, default)` for a string-valued field: the stored string
when the key is present with a string value, the default otherwise. -/
def Json.getStrD (j : Json) (k : String) (d : String) : String :=
  match j.get? k with
  | some (.str s) => s
  | _ => d

/-- Python's `d.get(k, default)` for an integer-valued field. -/
def Json.getIntD (j : Json) (k : String) (d : Int) : Int :=
  match j.get? k with
  | some (.num n) => n
  | _ => d

/-- The element list of a JSON array (a non-array yields the empty list). -/
def asArr : Json → List Json
  | .arr xs => xs
  | _ => []

/-- `os.getenv(k)` followed by Python truthiness: an unset variable and a
variable set to the empty string are both "missing" (`not value` is true). -/
def truthyEnv (env : String → Option String) (k : String) : Option String :=
  match env k with
  | none => none
  | some s => if s = "" then none else some s

/-- `os.getenv(k, default)`: the default applies only when `k` is unset. -/
def getenvD (env : String → Option String) (k d : String) : String :=
  (env k).getD d

/-- Worker for `pySplit`: scan the characters, accumulating the current word
(in reverse); a whitespace character ends the current word, and runs of
whitespace produce no empty words. -/
def splitWordsAux : List Char → List Char → List String
  | [], acc => if acc = [] then [] else [String.mk acc.reverse]
  | c :: cs, acc =>
    if c.isWhitespace then
      if acc = [] then splitWordsAux cs []
      else String.mk acc.reverse :: splitWordsAux cs []
    else splitWordsAux cs (c :: acc)

/-- Python's `content.split()`: split on runs of whitespace, dropping empty
pieces (so leading/trailing whitespace yields no words). -/
def pySplit (s : String) : List String :=
  splitWordsAux s.toList []

/-- Python's `s.split('\n')[0]`: the first line of a commit message. -/
def firstLine (s : String) : String :=
  (s.splitOn "\n").headD ""

/-- Exceptions of `update.py` that escape to `main` (nothing in `update.py`
catches them): the missing-`.env` `FileNotFoundError` of `load_env`, the
missing-LinkedIn-token `ValueError` of `fetch_linkedin_data`, and the
`KeyError` that the raw indexing
`data["items"][0]["contentDetails"]["relatedPlaylists"]["uploads"]` in
`fetch_youtube_uploads_playlist` raises on a malformed channel response. -/
inductive RunError where
  | fileNotFoundError : RunError
  | valueError : RunError
  | keyError : RunError
deriving DecidableEq

/-- Outcome of one `requests.get` call: a network-level failure (connection
error or timeout, i.e. a `RequestException` raised by `requests.get` itself),
or an HTTP response with status code and JSON body. -/
inductive HttpOutcome where
  | netErr : HttpOutcome
  | status : Nat → Json → HttpOutcome

/-- `response.raise_for_status()` composed with `response.json()`: a network
failure or a 4xx/5xx status raises a `RequestException` (caught by every
caller that uses this pattern), any other status yields the body. -/
def getChecked : HttpOutcome → Option Json
  | .netErr => none
  | .status code body => if 400 ≤ code then none else some body

/-- One normalized LinkedIn post, as built by `parse_linkedin_posts`. -/
structure Post where
  date : String
  content : String
  url : String
  entity_urn : String
deriving DecidableEq

/-- `element.get("created", {}).get("time", 0)`: the creation timestamp of a
raw LinkedIn element, in epoch milliseconds, zero when absent. -/
def elementCreatedTime (element : Json) : Int :=
  (element.getD "created" (Json.obj [])).getIntD "time" 0

/-- `datetime.fromtimestamp(created_time / 1000).isoformat() if created_time
else datetime.now().isoformat()`: a zero (or absent) creation time falls back
to the current time of the run. -/
def elementDate (isoOfMillis : Int → String) (nowIso : String) (element : Json) : String :=
  if elementCreatedTime element ≠ 0 then isoOfMillis (elementCreatedTime element) else nowIso

/-- Content extraction for the ugcPosts (primary) shape:
`element.get("specificContent", {}).get("com.linkedin.ugc.ShareContent", {})
.get("shareCommentary", {}).get("text", "")`. -/
def primaryContent (element : Json) : String :=
  let linkedin_share :=
    Json.getD (element.getD "specificContent" (Json.obj [])) "com.linkedin.ugc.ShareContent" (Json.obj [])
  let share_commentary := linkedin_share.getD "shareCommentary" (Json.obj [])
  share_commentary.getStrD "text" ""

/-- The ugcPosts branch of the loop body of `parse_linkedin_posts`:
a record is appended only when the extracted content is non-empty. -/
def primaryParse (isoOfMillis : Int → String) (nowIso : String) (element : Json) : Option Post :=
  let ugc_post_id := element.getStrD "id" ""
  let content := primaryContent element
  let date := elementDate isoOfMillis nowIso element
  let post_url :=
    if ugc_post_id ≠ ""
    then "https://www.linkedin.com/feed/update/urn:li:ugcPost:" ++ ugc_post_id ++ "/"
    else ""
  if content ≠ "" then
    some ⟨date, content, post_url, "urn:li:ugcPost:" ++ ugc_post_id⟩
  else none

/-- Content extraction for the memberChangeLogs (fallback) shape:
`if "commentary" in element: content = element.get("commentary", {}).get("text", "")`
`elif "text" in element: content = element.get("text", "")`, else `""`. -/
def fallbackContent (element : Json) : String :=
  if element.hasKey "commentary" then
    (element.getD "commentary" (Json.obj [])).getStrD "text" ""
  else if element.hasKey "text" then
    element.getStrD "text" ""
  else ""

/-- The memberChangeLogs branch of the loop body of `parse_linkedin_posts`:
a record is appended when `content or entity_urn` is truthy. -/
def fallbackParse (isoOfMillis : Int → String) (nowIso : String) (element : Json) : Option Post :=
  let entity_urn := element.getStrD "entityUrn" ""
  let content := fallbackContent element
  let date := elementDate isoOfMillis nowIso element
  let post_url :=
    if entity_urn ≠ ""
    then "https://www.linkedin.com/feed/update/" ++ entity_urn ++ "/"
    else ""
  if content ≠ "" ∨ entity_urn ≠ "" then
    some ⟨date, content, post_url, entity_urn⟩
  else none

/-- One iteration of the loop of `parse_linkedin_posts`: shape dispatch on
`"specificContent" in element`. -/
def parsePostElem (isoOfMillis : Int → String) (nowIso : String) (element : Json) : Option Post :=
  if element.hasKey "specificContent" then primaryParse isoOfMillis nowIso element
  else fallbackParse isoOfMillis nowIso element

/-- `linkedin_data.get("elements", [])`. -/
def elementsOf (linkedin_data : Json) : List Json :=
  asArr (linkedin_data.getD "elements" (Json.arr []))

/-- `parse_linkedin_posts` of `update.py`: normalize every element, keeping
source order, then `posts[:5]`. -/
def parse_linkedin_posts (isoOfMillis : Int → String) (nowIso : String)
    (linkedin_data : Json) : List Post :=
  ((elementsOf linkedin_data).filterMap (parsePostElem isoOfMillis nowIso)).take 5

/-- `fetch_linkedin_data` of `update.py`, as a function of the two endpoint
outcomes.  Raises (`.error .valueError`) when the LinkedIn access token is
missing or empty; a network failure of the attempted call is caught and
yields `{"elements": []}` with no debug-artifact write; a successful
response body is both returned and written verbatim to the raw debug
artifact (the second component of the pair; `none` means no write). -/
def fetch_linkedin_data (env : String → Option String)
    (primaryResp fallbackResp : HttpOutcome) : Except RunError (Json × Option Json) :=
  match truthyEnv env "linkedin_access_token" with
  | none => .error .valueError
  | some _ =>
    match primaryResp with
    | .netErr => .ok (Json.obj [("elements", Json.arr [])], none)
    | .status code body =>
      if code = 200 then .ok (body, some body)
      else
        match fallbackResp with
        | .netErr => .ok (Json.obj [("elements", Json.arr [])], none)
        | .status c2 b2 =>
          if 400 ≤ c2 then .ok (Json.obj [("elements", Json.arr [])], none)
          else .ok (b2, some b2)

/-- One commit summary kept by `fetch_github_activity`. -/
structure Commit where
  sha : String
  message : String
deriving DecidableEq

/-- The record returned by `fetch_github_activity` when a repository exists. -/
structure GithubActivity where
  repo : String
  repo_name : String
  commits : List Commit
  pushed_at : String
deriving DecidableEq

/-- `fetch_github_activity` of `update.py`, as a function of the two response
outcomes.  A missing/empty `PORTFOLIO_GITHUB` username, a failed repository
listing, or an empty repository list yield `none`; a failed commits call
degrades to an empty commit list (`except:` catches everything there). -/
def fetch_github_activity (env : String → Option String)
    (reposResp commitsResp : HttpOutcome) : Option GithubActivity :=
  match truthyEnv env "PORTFOLIO_GITHUB" with
  | none => none
  | some _ =>
    match getChecked reposResp with
    | none => none
    | some reposJson =>
      match asArr reposJson with
      | [] => none
      | latest_repo :: _ =>
        let latest_commits :=
          match getChecked commitsResp with
          | none => []
          | some commitsJson =>
            ((asArr commitsJson).take 3).map (fun commit =>
              ⟨(commit.getStrD "sha" "").take 7,
               firstLine ((commit.getD "commit" (Json.obj [])).getStrD "message" "")⟩)
        some ⟨latest_repo.getStrD "full_name" "",
              latest_repo.getStrD "name" "",
              latest_commits,
              latest_repo.getStrD "pushed_at" ""⟩

/-- One video summary kept by `fetch_youtube_latest_videos`. -/
structure Video where
  title : String
  video_id : String
  published_at : String
  thumbnail : String
deriving DecidableEq

/-- `fetch_youtube_uploads_playlist` of `update.py`.  Missing/empty
credentials, a failed channel call, or a response without a non-empty
`items` list yield `.ok none`; a present first item is indexed with raw
`[...]` subscripts, so a missing `contentDetails`/`relatedPlaylists`/`uploads`
path raises a `KeyError` that nothing catches (`.error .keyError`). -/
def fetch_youtube_uploads_playlist (env : String → Option String)
    (channelsResp : HttpOutcome) : Except RunError (Option String) :=
  match truthyEnv env "youtube_api_key", truthyEnv env "youtube_channel_ID" with
  | some _, some _ =>
    (match getChecked channelsResp with
     | none => .ok none
     | some data =>
       match data.get? "items" with
       | some (Json.arr (item0 :: _)) =>
         (match item0.get? "contentDetails" with
          | none => .error .keyError
          | some cd =>
            match cd.get? "relatedPlaylists" with
            | none => .error .keyError
            | some rp =>
              match rp.get? "uploads" with
              | some (Json.str uploads_id) => .ok (some uploads_id)
              | _ => .error .keyError)
       | _ => .ok none)
  | _, _ => .ok none

/-- The per-item projection of the playlist-items response in
`fetch_youtube_latest_videos`: every element of `data.get("items", [])`
becomes one video summary (there is no local truncation of this list). -/
def parsePlaylistItems (data : Json) : List Video :=
  (asArr (data.getD "items" (Json.arr []))).map (fun item =>
    let snippet := item.getD "snippet" (Json.obj [])
    ⟨snippet.getStrD "title" "",
     (snippet.getD "resourceId" (Json.obj [])).getStrD "videoId" "",
     snippet.getStrD "publishedAt" "",
     ((snippet.getD "thumbnails" (Json.obj [])).getD "high" (Json.obj [])).getStrD "url" ""⟩)

/-- `fetch_youtube_latest_videos` of `update.py`.  `max_results` is sent only
as the `maxResults` request parameter of the playlist-items call; the
function body never truncates the returned list with it.  A falsy uploads
playlist id (absent, or the empty string) and a failed playlist-items call
both yield the empty list. -/
def fetch_youtube_latest_videos (env : String → Option String)
    (channelsResp itemsResp : HttpOutcome) (max_results : Nat) : Except RunError (List Video) :=
  match fetch_youtube_uploads_playlist env channelsResp with
  | .error e => .error e
  | .ok none => .ok []
  | .ok (some uploads_playlist_id) =>
    if uploads_playlist_id = "" then .ok []
    else
      match getChecked itemsResp with
      | none => .ok []
      | some data =>
        let _ := max_results
        .ok (parsePlaylistItems data)

/-- JSON rendering of a normalized post, in the field order of the dict
literal of `parse_linkedin_posts`. -/
def Post.toJson (p : Post) : Json :=
  Json.obj [("date", Json.str p.date), ("content", Json.str p.content),
            ("url", Json.str p.url), ("entity_urn", Json.str p.entity_urn)]

/-- JSON rendering of one commit summary. -/
def Commit.toJson (c : Commit) : Json :=
  Json.obj [("sha", Json.str c.sha), ("message", Json.str c.message)]

/-- JSON rendering of the GitHub activity record, in the field order of the
dict literal of `fetch_github_activity`. -/
def GithubActivity.toJson (g : GithubActivity) : Json :=
  Json.obj [("repo", Json.str g.repo), ("repo_name", Json.str g.repo_name),
            ("commits", Json.arr (g.commits.map Commit.toJson)),
            ("pushed_at", Json.str g.pushed_at)]

/-- JSON rendering of one video summary, in the field order of the dict
literal of `fetch_youtube_latest_videos`. -/
def Video.toJson (v : Video) : Json :=
  Json.obj [("title", Json.str v.title), ("video_id", Json.str v.video_id),
            ("published_at", Json.str v.published_at), ("thumbnail", Json.str v.thumbnail)]

/-- The `latest_linkedin_post` value built at the top of
`generate_data_json`: `None` (JSON null) when the post list is empty,
otherwise a preview object for `posts[0]`, with
`words = content.split()[:5]` and
`preview = " ".join(words) + ("..." if len(words) >= 5 else "")`. -/
def latestLinkedinPost (posts : List Post) : Json :=
  match posts with
  | [] => Json.null
  | p :: _ =>
    let content := p.content
    let words := (pySplit content).take 5
    let preview := String.intercalate " " words ++ (if 5 ≤ words.length then "..." else "")
    Json.obj [("preview", Json.str preview), ("url", Json.str p.url),
              ("full_content", Json.str content)]

/-- The document dict built by `generate_data_json` of `update.py` (the
function then writes it to `data.json`; the write itself is performed by the
caller model `main` below). -/
def generate_data_json (env : String → Option String) (nowIso : String)
    (posts : List Post) (github_activity : Option GithubActivity)
    (youtube_videos : List Video) : Json :=
  Json.obj
    [("name", Json.str (getenvD env "PORTFOLIO_NAME" "Your Name")),
     ("title", Json.str (getenvD env "PORTFOLIO_TITLE" "Your Title")),
     ("linkedin_posts", Json.arr (posts.map Post.toJson)),
     ("latest_linkedin_post", latestLinkedinPost posts),
     ("github_activity", (github_activity.map GithubActivity.toJson).getD Json.null),
     ("youtube_videos", Json.arr (youtube_videos.map Video.toJson)),
     ("contact", Json.obj
        [("email", Json.str (getenvD env "PORTFOLIO_EMAIL" "your.email@example.com")),
         ("github", Json.str (getenvD env "PORTFOLIO_GITHUB" "yourusername")),
         ("linkedin", Json.str (getenvD env "PORTFOLIO_LINKEDIN" "https://linkedin.com/in/yourprofile"))]),
     ("last_updated", Json.str nowIso)]

/-- The keys of a JSON object, in order. -/
def Json.keys : Json → List String
  | .obj kvs => kvs.map Prod.fst
  | _ => []

/-- `load_env` of `update.py`: raises `FileNotFoundError` when the `.env`
file does not exist (loading the variables themselves is modelled by the
`env` function already carrying the loaded environment). -/
def load_env (envFileExists : Bool) : Except RunError Unit :=
  if envFileExists then .ok () else .error .fileNotFoundError

/-- All run-external inputs of one invocation of `update.py`: whether the
`.env` file exists, the loaded environment, the outcome of each of the six
possible HTTP calls, and the current time. -/
structure World where
  envFileExists : Bool
  env : String → Option String
  linkedinPrimary : HttpOutcome
  linkedinFallback : HttpOutcome
  githubRepos : HttpOutcome
  githubCommits : HttpOutcome
  youtubeChannels : HttpOutcome
  youtubeItems : HttpOutcome
  isoOfMillis : Int → String
  nowIso : String

/-- `main` of `update.py`.  The first component is the raw LinkedIn debug
artifact written during the run (`none` when it was not written), the second
is the `data.json` document written on success, or the exception that the
`except` block of `main` logs and re-raises (in which case `data.json` is
not written). -/
def main (w : World) : Option Json × Except RunError Json :=
  match load_env w.envFileExists with
  | .error e => (none, .error e)
  | .ok _ =>
    match fetch_linkedin_data w.env w.linkedinPrimary w.linkedinFallback with
    | .error e => (none, .error e)
    | .ok (linkedin_data, raw) =>
      let posts := parse_linkedin_posts w.isoOfMillis w.nowIso linkedin_data
      let github_activity := fetch_github_activity w.env w.githubRepos w.githubCommits
      match fetch_youtube_latest_videos w.env w.youtubeChannels w.youtubeItems 5 with
      | .error e => (raw, .error e)
      | .ok youtube_videos =>
        (raw, .ok (generate_data_json w.env w.nowIso posts github_activity youtube_videos))

/-- Modelled from the spec: the fallback-shape content rule as the claim
words it — "content = commentary.text when it is present, otherwise the
top-level text field when it is present, otherwise the empty string".
Written for comparison with `fallbackContent`, the rule of the source. -/
def specFallbackContent (element : Json) : String :=
  match (element.getD "commentary" (Json.obj [])).get? "text" with
  | some (Json.str s) => s
  | _ =>
    match element.get? "text" with
    | some (Json.str s) => s
    | _ => ""

/-- Modelled from the spec (amended): content is `commentary.get("text", "")`
whenever the `commentary` key is present — with no fall-through to the
top-level `text` field even when `commentary` lacks a `text` — otherwise the
top-level `text` field when that key is present with a string, otherwise the
empty string. -/
def specFallbackContentAmended (element : Json) : String :=
  match element.get? "commentary" with
  | some commentary =>
    (match commentary.get? "text" with
     | some (Json.str s) => s
     | _ => "")
  | none =>
    match element.get? "text" with
    | some (Json.str s) => s
    | _ => ""

/-- Test fixture: a raw element carrying both a `specificContent` key and a
`commentary` key, whose two shape rules would extract different content. -/
def elementWithBothShapes : Json :=
  Json.obj [("id", Json.str "42"),
    ("specificContent", Json.obj [("com.linkedin.ugc.ShareContent",
       Json.obj [("shareCommentary", Json.obj [("text", Json.str "primary words")])])]),
    ("commentary", Json.obj [("text", Json.str "fallback words")])]

/-- Test fixture: an environment configuring only the two YouTube credentials. -/
def ytEnvFixture : String → Option String := fun k =>
  if k = "youtube_api_key" then some "key"
  else if k = "youtube_channel_ID" then some "chan" else none

/-- Test fixture: a channel-lookup response resolving the uploads playlist. -/
def ytChannelsFixture : HttpOutcome :=
  HttpOutcome.status 200 (Json.obj [("items", Json.arr [Json.obj [("contentDetails",
    Json.obj [("relatedPlaylists", Json.obj [("uploads", Json.str "UUabc")])])]])])

/-- Test fixture: a playlist-items response body carrying six items, one more
than the default `max_results` of 5. -/
def ytSixItemsFixture : Json :=
  Json.obj [("items", Json.arr
    [Json.obj [], Json.obj [], Json.obj [], Json.obj [], Json.obj [], Json.obj []])]

/-! ## Theorems -/

/-- The ellipsis test of `generate_data_json` is applied after truncation
(`len(words) >= 5` with `words = content.split()[:5]`), which is equivalent
to asking whether the full word list has 5 or more words. -/
theorem take5_length_cond (l : List String) :
    (5 ≤ (l.take 5).length) = (5 ≤ l.length) := by
  apply propext
  rw [List.length_take]
  omega

/-- The preview object built for a non-empty post list, stated with the
ellipsis condition on the full word count of the content. -/
theorem latestLinkedinPost_cons (p : Post) (rest : List Post) :
    latestLinkedinPost (p :: rest) =
      Json.obj [("preview", Json.str (String.intercalate " " ((pySplit p.content).take 5) ++
          (if 5 ≤ (pySplit p.content).length then "..." else ""))),
        ("url", Json.str p.url), ("full_content", Json.str p.content)] := by
  show Json.obj [("preview", Json.str (String.intercalate " " ((pySplit p.content).take 5) ++
      (if 5 ≤ ((pySplit p.content).take 5).length then "..." else ""))),
    ("url", Json.str p.url), ("full_content", Json.str p.content)] = _
  simp only [take5_length_cond]

/-- Claim C1 (confirmed): for every combination of fetcher outputs, the
document built by `generate_data_json` has exactly the top-level keys
`name`, `title`, `linkedin_posts`, `latest_linkedin_post`,
`github_activity`, `youtube_videos`, `contact`, `last_updated`, and failed
or absent sources appear as JSON null or empty-list values of those keys,
never as missing keys. -/
theorem generate_data_json_total_keys (env : String → Option String) (nowIso : String)
    (posts : List Post) (github_activity : Option GithubActivity)
    (youtube_videos : List Video) :
    (generate_data_json env nowIso posts github_activity youtube_videos).keys =
      ["name", "title", "linkedin_posts", "latest_linkedin_post", "github_activity",
       "youtube_videos", "contact", "last_updated"]
    ∧ (github_activity = none →
        (generate_data_json env nowIso posts github_activity youtube_videos).get?
          "github_activity" = some Json.null)
    ∧ (posts = [] →
        (generate_data_json env nowIso posts github_activity youtube_videos).get?
            "linkedin_posts" = some (Json.arr [])
          ∧ (generate_data_json env nowIso posts github_activity youtube_videos).get?
            "latest_linkedin_post" = some Json.null)
    ∧ (youtube_videos = [] →
        (generate_data_json env nowIso posts github_activity youtube_videos).get?
          "youtube_videos" = some (Json.arr [])) := by
  refine ⟨rfl, ?_, ?_, ?_⟩
  · rintro rfl; rfl
  · rintro rfl; exact ⟨rfl, rfl⟩
  · rintro rfl; rfl

/-- Witness for C1: with every source failed or empty, the document still
carries all the section keys, with null/empty values. -/
theorem generate_data_json_total_keys_witness :
    (generate_data_json (fun _ => none) "2024-01-01T00:00:00" [] none []).get?
        "github_activity" = some Json.null
    ∧ (generate_data_json (fun _ => none) "2024-01-01T00:00:00" [] none []).get?
        "latest_linkedin_post" = some Json.null
    ∧ (generate_data_json (fun _ => none) "2024-01-01T00:00:00" [] none []).get?
        "youtube_videos" = some (Json.arr []) :=
  ⟨(generate_data_json_total_keys (fun _ => none) "2024-01-01T00:00:00" [] none []).2.1 rfl,
   ((generate_data_json_total_keys (fun _ => none) "2024-01-01T00:00:00" [] none []).2.2.1 rfl).2,
   (generate_data_json_total_keys (fun _ => none) "2024-01-01T00:00:00" [] none []).2.2.2 rfl⟩

/-- Claim C2 (confirmed): the assembler builds a latest-post preview object
exactly when the post list is non-empty (otherwise the key holds JSON
null); the preview is the first 5 whitespace-separated words of the first
(most recent) post's content joined by single spaces, with a literal
ellipsis appended if and only if the content has 5 or more words. -/
theorem latest_post_preview_correct (env : String → Option String) (nowIso : String)
    (p : Post) (rest : List Post) (github_activity : Option GithubActivity)
    (youtube_videos : List Video) :
    (generate_data_json env nowIso (p :: rest) github_activity youtube_videos).get?
        "latest_linkedin_post"
      = some (Json.obj [("preview", Json.str (String.intercalate " " ((pySplit p.content).take 5) ++
            (if 5 ≤ (pySplit p.content).length then "..." else ""))),
          ("url", Json.str p.url), ("full_content", Json.str p.content)])
    ∧ (generate_data_json env nowIso [] github_activity youtube_videos).get?
        "latest_linkedin_post" = some Json.null := by
  constructor
  · have hstep : (generate_data_json env nowIso (p :: rest) github_activity youtube_videos).get?
        "latest_linkedin_post" = some (latestLinkedinPost (p :: rest)) := rfl
    rw [hstep, latestLinkedinPost_cons]
  · rfl

/-- Claim C3 (counterexample): normalization is not determined by the raw
payload alone.  A fallback-shape element with content but no `created.time`
takes the run's current time as its date, so normalizing the same payload at
two different times yields different output lists. -/
theorem parse_linkedin_posts_time_dependent :
    parse_linkedin_posts (fun n => toString n) "2024-01-01T00:00:00"
        (Json.obj [("elements", Json.arr [Json.obj [("text", Json.str "hi"),
          ("entityUrn", Json.str "urn:li:share:1")]])])
      ≠ parse_linkedin_posts (fun n => toString n) "2024-01-02T00:00:00"
        (Json.obj [("elements", Json.arr [Json.obj [("text", Json.str "hi"),
          ("entityUrn", Json.str "urn:li:share:1")]])]) := by
  decide

/-- The loop body of `parse_linkedin_posts` reads the current time only when
the element's creation timestamp is zero/absent. -/
theorem parsePostElem_time_indep (isoOfMillis : Int → String) (now1 now2 : String)
    (el : Json) (h : elementCreatedTime el ≠ 0) :
    parsePostElem isoOfMillis now1 el = parsePostElem isoOfMillis now2 el := by
  unfold parsePostElem primaryParse fallbackParse elementDate
  simp [h]

/-- Claim C3 (amended): for a fixed raw payload in which every element
carries a nonzero `created.time`, normalization at two different current
times yields identical output lists; only elements with a zero/absent
creation timestamp make the output depend on the time of the run. -/
theorem parse_linkedin_posts_deterministic (isoOfMillis : Int → String)
    (now1 now2 : String) (data : Json)
    (h : ∀ el ∈ elementsOf data, elementCreatedTime el ≠ 0) :
    parse_linkedin_posts isoOfMillis now1 data = parse_linkedin_posts isoOfMillis now2 data := by
  unfold parse_linkedin_posts
  congr 1
  exact List.filterMap_congr
    (fun el hel => parsePostElem_time_indep isoOfMillis now1 now2 el (h el hel))

/-- Witness for the amended C3: a payload whose single element has
`created.time = 1700000000000` normalizes identically at two times. -/
theorem parse_linkedin_posts_deterministic_witness :
    parse_linkedin_posts (fun n => toString n) "2024-01-01T00:00:00"
        (Json.obj [("elements", Json.arr [Json.obj [("text", Json.str "hi"),
          ("entityUrn", Json.str "urn:li:share:1"),
          ("created", Json.obj [("time", Json.num 1700000000000)])]])])
      = parse_linkedin_posts (fun n => toString n) "2024-01-02T00:00:00"
        (Json.obj [("elements", Json.arr [Json.obj [("text", Json.str "hi"),
          ("entityUrn", Json.str "urn:li:share:1"),
          ("created", Json.obj [("time", Json.num 1700000000000)])]])]) :=
  parse_linkedin_posts_deterministic (fun n => toString n)
    "2024-01-01T00:00:00" "2024-01-02T00:00:00" _ (by decide)

/-- Claim C4 (counterexample): the video fetcher applies no local cap.  With
both credentials configured and a resolved uploads playlist, a
playlist-items response carrying six items yields a six-element list even
though `max_results = 5`. -/
theorem fetch_youtube_latest_videos_exceeds_max :
    (fetch_youtube_latest_videos ytEnvFixture ytChannelsFixture
        (HttpOutcome.status 200 ytSixItemsFixture) 5).map List.length = Except.ok 6
    ∧ ¬ (6 ≤ 5) :=
  ⟨rfl, by decide⟩

/-- Claim C4 (amended): `max_results` only parameterizes the request; when
the credentials are present, the uploads playlist resolves to a non-empty
id, and the playlist-items call succeeds, the returned list has exactly one
video per item of the response — its length is the response's item count,
whatever `max_results` is. -/
theorem fetch_youtube_latest_videos_length_eq_items (env : String → Option String)
    (channelsResp : HttpOutcome) (data : Json) (max_results : Nat) (pid : String)
    (h : fetch_youtube_uploads_playlist env channelsResp = Except.ok (some pid))
    (hpid : pid ≠ "") :
    fetch_youtube_latest_videos env channelsResp (HttpOutcome.status 200 data) max_results
        = Except.ok (parsePlaylistItems data)
    ∧ (parsePlaylistItems data).length = (asArr (data.getD "items" (Json.arr []))).length := by
  constructor
  · unfold fetch_youtube_latest_videos
    rw [h]
    simp [hpid, getChecked]
  · simp [parsePlaylistItems]

/-- Witness for the amended C4: the six-item response yields its six videos
unchanged. -/
theorem fetch_youtube_latest_videos_length_eq_items_witness :
    fetch_youtube_latest_videos ytEnvFixture ytChannelsFixture
        (HttpOutcome.status 200 ytSixItemsFixture) 5
      = Except.ok (parsePlaylistItems ytSixItemsFixture)
    ∧ (parsePlaylistItems ytSixItemsFixture).length
      = (asArr (ytSixItemsFixture.getD "items" (Json.arr []))).length :=
  fetch_youtube_latest_videos_length_eq_items ytEnvFixture ytChannelsFixture
    ytSixItemsFixture 5 "UUabc" rfl (by decide)

/-- Claim C5 (counterexample): the fallback content rule does not fall
through to the top-level `text` field.  On the fallback-shape element
`{"commentary": {}, "text": "hello"}` — where `commentary.text` is absent
and a top-level `text` is present — the claim's rule (`specFallbackContent`)
gives `"hello"`, but the code (`fallbackContent`) gives the empty string;
consequently the element is not emitted at all (its `entityUrn` is also
absent), where the claim's rule would have emitted content `"hello"`. -/
theorem fallback_content_claim_false :
    (Json.obj [("commentary", Json.obj []), ("text", Json.str "hello")]).hasKey
        "specificContent" = false
    ∧ fallbackContent (Json.obj [("commentary", Json.obj []), ("text", Json.str "hello")]) = ""
    ∧ specFallbackContent (Json.obj [("commentary", Json.obj []), ("text", Json.str "hello")])
        = "hello"
    ∧ fallbackContent (Json.obj [("commentary", Json.obj []), ("text", Json.str "hello")])
        ≠ specFallbackContent (Json.obj [("commentary", Json.obj []), ("text", Json.str "hello")])
    ∧ parse_linkedin_posts (fun n => toString n) "2024-01-01T00:00:00"
        (Json.obj [("elements", Json.arr [Json.obj [("commentary", Json.obj []),
          ("text", Json.str "hello")]])]) = [] :=
  ⟨rfl, rfl, rfl, by decide, rfl⟩

/-- Claim C5 (amended): for every fallback-shape element, the normalized
content is `commentary.get("text", "")` whenever the `commentary` key is
present — with no fall-through to the top-level `text` field even when
`commentary` carries no text — otherwise the top-level `text` field when
that key is present, otherwise the empty string; and every record the
normalizer emits for such an element carries exactly that content. -/
theorem fallback_content_amended_correct (isoOfMillis : Int → String) (nowIso : String)
    (el : Json) (h : el.hasKey "specificContent" = false) :
    fallbackContent el = specFallbackContentAmended el
    ∧ ∀ p, parsePostElem isoOfMillis nowIso el = some p →
        p.content = specFallbackContentAmended el := by
  have h1 : fallbackContent el = specFallbackContentAmended el := by
    unfold fallbackContent specFallbackContentAmended Json.hasKey Json.getD Json.getStrD
    cases hc : el.get? "commentary" with
    | none =>
      cases ht : el.get? "text" with
      | none => simp [hc, ht]
      | some t => cases t <;> simp [hc, ht]
    | some c => simp [hc]
  refine ⟨h1, ?_⟩
  intro p hp
  have hfb : parsePostElem isoOfMillis nowIso el = fallbackParse isoOfMillis nowIso el := by
    simp [parsePostElem, h]
  rw [hfb] at hp
  simp only [fallbackParse] at hp
  split at hp
  · cases hp
    exact h1
  · cases hp

/-- Witness for the amended C5: an element whose `commentary` carries text
gets that text as content, both in the content rule and in the emitted
record. -/
theorem fallback_content_amended_correct_witness :
    fallbackContent (Json.obj [("commentary", Json.obj [("text", Json.str "yo")]),
        ("entityUrn", Json.str "u1")])
      = specFallbackContentAmended (Json.obj [("commentary", Json.obj [("text", Json.str "yo")]),
        ("entityUrn", Json.str "u1")])
    ∧ specFallbackContentAmended (Json.obj [("commentary", Json.obj [("text", Json.str "yo")]),
        ("entityUrn", Json.str "u1")]) = "yo" :=
  ⟨(fallback_content_amended_correct (fun n => toString n) "2024-01-01T00:00:00"
      (Json.obj [("commentary", Json.obj [("text", Json.str "yo")]),
        ("entityUrn", Json.str "u1")]) rfl).1, rfl⟩

/-- Claim C6 (confirmed): an element containing a `specificContent` key is
always parsed by the primary-shape (ugcPosts) rule, even when it also
contains a `commentary` key; the fallback-shape rule applies exactly to the
elements without `specificContent`. -/
theorem parse_shape_dispatch (isoOfMillis : Int → String) (nowIso : String) :
    (∀ el, el.hasKey "specificContent" = true →
        parsePostElem isoOfMillis nowIso el = primaryParse isoOfMillis nowIso el)
    ∧ (∀ el, el.hasKey "specificContent" = false →
        parsePostElem isoOfMillis nowIso el = fallbackParse isoOfMillis nowIso el) := by
  constructor <;> intro el h <;> simp [parsePostElem, h]

/-- Witness for C6: an element carrying both `specificContent` and
`commentary` is parsed by the primary rule, and the emitted content is the
`shareCommentary` text, not the `commentary` text. -/
theorem parse_shape_dispatch_witness :
    parsePostElem (fun n => toString n) "2024-01-01T00:00:00" elementWithBothShapes
        = primaryParse (fun n => toString n) "2024-01-01T00:00:00" elementWithBothShapes
    ∧ (parsePostElem (fun n => toString n) "2024-01-01T00:00:00" elementWithBothShapes).map
        Post.content = some "primary words" :=
  ⟨(parse_shape_dispatch (fun n => toString n) "2024-01-01T00:00:00").1
      elementWithBothShapes rfl, rfl⟩

/-- Claim C7 (confirmed): a primary-shape element is emitted iff its
extracted content is non-empty; a fallback-shape element is emitted iff its
extracted content is non-empty or its extracted entity identifier is
non-empty (in particular the fallback rule is strictly looser: non-empty
content still suffices, and an element with empty content but an identifier
is also emitted). -/
theorem parse_emission_rules (isoOfMillis : Int → String) (nowIso : String) :
    (∀ el, el.hasKey "specificContent" = true →
        ((parsePostElem isoOfMillis nowIso el).isSome = true ↔ primaryContent el ≠ ""))
    ∧ (∀ el, el.hasKey "specificContent" = false →
        ((parsePostElem isoOfMillis nowIso el).isSome = true ↔
          (fallbackContent el ≠ "" ∨ el.getStrD "entityUrn" "" ≠ "")))
    ∧ (∀ el, el.hasKey "specificContent" = false → fallbackContent el ≠ "" →
        (parsePostElem isoOfMillis nowIso el).isSome = true)
    ∧ (∃ el, el.hasKey "specificContent" = false ∧ fallbackContent el = ""
        ∧ (parsePostElem isoOfMillis nowIso el).isSome = true) := by
  have key : ∀ el, el.hasKey "specificContent" = false →
      ((parsePostElem isoOfMillis nowIso el).isSome = true ↔
        (fallbackContent el ≠ "" ∨ el.getStrD "entityUrn" "" ≠ "")) := by
    intro el h
    by_cases hc : fallbackContent el ≠ "" ∨ el.getStrD "entityUrn" "" ≠ ""
    · simp [parsePostElem, h, fallbackParse, hc]
    · simp [parsePostElem, h, fallbackParse, hc]
  refine ⟨?_, key, ?_, ?_⟩
  · intro el h
    by_cases hc : primaryContent el ≠ "" <;> simp [parsePostElem, h, primaryParse, hc]
  · intro el h hc
    exact (key el h).mpr (Or.inl hc)
  · exact ⟨Json.obj [("entityUrn", Json.str "urn:li:share:9")], rfl, rfl,
      (key (Json.obj [("entityUrn", Json.str "urn:li:share:9")]) rfl).mpr
        (Or.inr (by decide))⟩

/-- Witness for C7: a fallback-shape element with empty content but a
present entity identifier is emitted. -/
theorem parse_emission_rules_witness :
    (parsePostElem (fun n => toString n) "2024-01-01T00:00:00"
        (Json.obj [("entityUrn", Json.str "urn:li:share:9")])).isSome = true :=
  ((parse_emission_rules (fun n => toString n) "2024-01-01T00:00:00").2.1
      (Json.obj [("entityUrn", Json.str "urn:li:share:9")]) rfl).mpr
    (Or.inr (by decide))

/-- Claim C8 (confirmed): for every environment — hence for all four
presence/absence combinations of the GitHub username and the YouTube
credential pair — a missing (unset or empty) credential makes
`fetch_github_activity` return `none` and `fetch_youtube_latest_videos`
return the empty list, whatever the network responses; neither outcome is
an exception (the video fetcher's result is `Except.ok`). -/
theorem missing_credentials_degrade (env : String → Option String)
    (reposResp commitsResp channelsResp itemsResp : HttpOutcome) (max_results : Nat) :
    (truthyEnv env "PORTFOLIO_GITHUB" = none →
        fetch_github_activity env reposResp commitsResp = none)
    ∧ ((truthyEnv env "youtube_api_key" = none ∨ truthyEnv env "youtube_channel_ID" = none) →
        fetch_youtube_latest_videos env channelsResp itemsResp max_results = Except.ok []) := by
  constructor
  · intro h
    unfold fetch_github_activity
    rw [h]
  · intro h
    have hup : fetch_youtube_uploads_playlist env channelsResp = Except.ok none := by
      unfold fetch_youtube_uploads_playlist
      rcases h with h | h
      · rw [h]
      · rw [h]
        cases truthyEnv env "youtube_api_key" <;> rfl
    unfold fetch_youtube_latest_videos
    rw [hup]

/-- Witness for C8: with nothing configured, the GitHub fetcher yields null
and the video fetcher yields the empty list. -/
theorem missing_credentials_degrade_witness :
    fetch_github_activity (fun _ => none) HttpOutcome.netErr HttpOutcome.netErr = none
    ∧ fetch_youtube_latest_videos (fun _ => none) HttpOutcome.netErr HttpOutcome.netErr 5
      = Except.ok [] :=
  ⟨(missing_credentials_degrade (fun _ => none) HttpOutcome.netErr HttpOutcome.netErr
      HttpOutcome.netErr HttpOutcome.netErr 5).1 rfl,
   (missing_credentials_degrade (fun _ => none) HttpOutcome.netErr HttpOutcome.netErr
      HttpOutcome.netErr HttpOutcome.netErr 5).2 (Or.inl rfl)⟩

/-- Claim C9 (confirmed): on each fatal error — the `.env` configuration
file missing, or the LinkedIn access token missing — `main` terminates with
that error re-raised and writes neither the output document nor the debug
artifact, so the prior run's `data.json` is left unchanged. -/
theorem fatal_error_writes_nothing (w : World) :
    (w.envFileExists = false →
        main w = (none, Except.error RunError.fileNotFoundError))
    ∧ (w.envFileExists = true → truthyEnv w.env "linkedin_access_token" = none →
        main w = (none, Except.error RunError.valueError)) := by
  constructor
  · intro h
    simp [main, load_env, h]
  · intro h1 h2
    simp [main, load_env, h1, fetch_linkedin_data, h2]

/-- Witness for C9: both fatal-error runs write nothing and re-raise. -/
theorem fatal_error_writes_nothing_witness :
    main ⟨false, fun _ => none, HttpOutcome.netErr, HttpOutcome.netErr, HttpOutcome.netErr,
        HttpOutcome.netErr, HttpOutcome.netErr, HttpOutcome.netErr, fun n => toString n,
        "2024-01-01T00:00:00"⟩
      = (none, Except.error RunError.fileNotFoundError)
    ∧ main ⟨true, fun _ => none, HttpOutcome.netErr, HttpOutcome.netErr, HttpOutcome.netErr,
        HttpOutcome.netErr, HttpOutcome.netErr, HttpOutcome.netErr, fun n => toString n,
        "2024-01-01T00:00:00"⟩
      = (none, Except.error RunError.valueError) :=
  ⟨(fatal_error_writes_nothing _).1 rfl, (fatal_error_writes_nothing _).2 rfl rfl⟩

/-- Claim C10 (confirmed): with the token configured, a network-level
failure of the primary endpoint (after which the fallback is never reached
successfully) or of the fallback after a non-200 primary makes
`fetch_linkedin_data` return the empty `{"elements": []}` result without
raising and without writing the raw debug artifact; and whenever the
artifact is written, its content is exactly the body of a successful
response (the primary's 200 body, or the fallback's body with a non-error
status), which is also the returned data. -/
theorem linkedin_netfail_no_artifact (env : String → Option String) (tok : String)
    (h : truthyEnv env "linkedin_access_token" = some tok) :
    (∀ fallbackResp, fetch_linkedin_data env HttpOutcome.netErr fallbackResp
        = Except.ok (Json.obj [("elements", Json.arr [])], none))
    ∧ (∀ code body, code ≠ 200 →
        fetch_linkedin_data env (HttpOutcome.status code body) HttpOutcome.netErr
          = Except.ok (Json.obj [("elements", Json.arr [])], none))
    ∧ (∀ primaryResp fallbackResp d a,
        fetch_linkedin_data env primaryResp fallbackResp = Except.ok (d, some a) →
          d = a ∧ (primaryResp = HttpOutcome.status 200 a
            ∨ ∃ c, fallbackResp = HttpOutcome.status c a ∧ c < 400)) := by
  refine ⟨?_, ?_, ?_⟩
  · intro fallbackResp
    unfold fetch_linkedin_data
    rw [h]
  · intro code body hc
    unfold fetch_linkedin_data
    rw [h]
    simp [hc]
  · intro p f d a hpf
    unfold fetch_linkedin_data at hpf
    rw [h] at hpf
    cases p with
    | netErr => simp at hpf
    | status code body =>
      by_cases h200 : code = 200
      · subst h200
        simp at hpf
        obtain ⟨hd, ha⟩ := hpf
        subst hd
        subst ha
        exact ⟨rfl, Or.inl rfl⟩
      · cases f with
        | netErr => simp [h200] at hpf
        | status c2 b2 =>
          by_cases h400 : 400 ≤ c2
          · simp [h200, h400] at hpf
          · simp [h200, h400] at hpf
            obtain ⟨hd, ha⟩ := hpf
            subst hd
            subst ha
            exact ⟨rfl, Or.inr ⟨c2, rfl, by omega⟩⟩

/-- Witness for C10: primary and fallback both failing at the network level
yield the empty result with no artifact write. -/
theorem linkedin_netfail_no_artifact_witness :
    fetch_linkedin_data (fun k => if k = "linkedin_access_token" then some "tok" else none)
        HttpOutcome.netErr HttpOutcome.netErr
      = Except.ok (Json.obj [("elements", Json.arr [])], none) :=
  (linkedin_netfail_no_artifact
      (fun k => if k = "linkedin_access_token" then some "tok" else none) "tok" rfl).1
    HttpOutcome.netErr

end SelfUpdating
